import Mathlib

/-!
Formal model of the Metavern multi-agent roleplay orchestration layer.

The definitions below are a shallow embedding of the Python sources:
`managers/turn_manager.py` (round loop, winner selection, stall handling),
`managers/timelineManager.py` (timeline store, `add_event`, scene creation),
`managers/characterManager.py` (`decide_to_speak` and its error handling),
`roleplay_system.py` (`_save_conversation` / `_load_conversation_if_exists`)
and `config.py`.

Modelling conventions:
- Python floats (priorities, jitter) are modelled as rationals; the claims
  under study are purely order-theoretic, so this is faithful.
- Python `datetime` timestamps are modelled as naturals; `isoformat` /
  `fromisoformat` form a lossless round trip in the source, so serialization
  carries the value unchanged.
- Fallible paths are modelled with `Except`; a Python `try/except` block that
  swallows an error becomes a `match` collapsing the error branch, and an
  uncaught exception becomes a propagated `Except.error`.
- Python keyword-argument calls are modelled explicitly where the call site's
  keyword set matters: calling a function with a keyword not in its parameter
  list raises `TypeError` at call time.
- `repository` note: `data_models.py` in the source tree is an older variant
  that lacks the `Action`/`CharacterEntry`/`CharacterExit` event classes, the
  `Message.character`/`Message.dialouge` fields and the
  `TimelineHistory.current_participants` field, although every manager module
  imports and uses them.  Those record shapes are therefore modelled from the
  spec (its section 3) and from the field names used by the manager and
  save/load code; every behavioural definition is taken from the source.
-/

namespace Metavern

/-- Modelled from the spec (section 3, data model): the closed tagged event
variant used by every manager module.  `src/data_models.py` holds an older
shape without `Action`/`CharacterEntry`/`CharacterExit`; the constructors and
fields here follow the spec's payload lists and the field names the source
managers access (`character`, `dialouge`, `action_description`, `location`,
`description`, and the `reason` field the save/load code reads on exits).
Common envelope: `timeline_id` and `timestamp`. -/
inductive TimelineEvent where
  | message (timeline_id : String) (timestamp : Nat)
      (character : String) (dialouge : String) (action_description : String)
  | scene (timeline_id : String) (timestamp : Nat)
      (location : String) (description : String)
  | act_event (timeline_id : String) (timestamp : Nat)
      (character : String) (description : String)
  | characterEntry (timeline_id : String) (timestamp : Nat)
      (character : String) (description : String)
  | characterExit (timeline_id : String) (timestamp : Nat)
      (character : String) (description : String) (reason : Option String)
  deriving DecidableEq

/-- Modelled from the spec (section 3): the timeline record.  Field list as
used by the source managers: ordered `events`, `participants` (everyone ever
present), `current_participants` (present now), plus the metadata fields the
save/load code reads (`id`, `title`, `timeline_summary`, `visible_to_user`). -/
structure TimelineHistory where
  id : String
  title : Option String
  events : List TimelineEvent
  participants : List String
  current_participants : List String
  timeline_summary : Option String
  visible_to_user : Bool
  deriving DecidableEq

namespace Config

/-- config.py: MAX_CONSECUTIVE_AI_TURNS = 3 -/
def MAX_CONSECUTIVE_AI_TURNS : Nat := 3

/-- config.py: PRIORITY_RANDOMNESS = 0.1 -/
def PRIORITY_RANDOMNESS : ℚ := mkRat 1 10

end Config

/-- timelineManager.py, TimelineManager.add_event (lines 49-87): append the
event, then update the participant lists by kind.  Message, Action and
CharacterEntry add the character to `participants` and `current_participants`
when absent; CharacterExit adds the character to `participants` when absent
and then removes it from `current_participants` (Python `list.remove`, i.e.
first occurrence) when present; Scene leaves both lists unchanged.  The
event append never touches the participant lists, so the membership tests
read the pre-call lists exactly as in the source. -/
def add_event (t : TimelineHistory) (e : TimelineEvent) : TimelineHistory :=
  match e with
  | .message _ _ c _ _ =>
      { t with
          events := t.events ++ [e],
          participants :=
            if c ∈ t.participants then t.participants else t.participants ++ [c],
          current_participants :=
            if c ∈ t.current_participants then t.current_participants
            else t.current_participants ++ [c] }
  | .act_event _ _ c _ =>
      { t with
          events := t.events ++ [e],
          participants :=
            if c ∈ t.participants then t.participants else t.participants ++ [c],
          current_participants :=
            if c ∈ t.current_participants then t.current_participants
            else t.current_participants ++ [c] }
  | .characterEntry _ _ c _ =>
      { t with
          events := t.events ++ [e],
          participants :=
            if c ∈ t.participants then t.participants else t.participants ++ [c],
          current_participants :=
            if c ∈ t.current_participants then t.current_participants
            else t.current_participants ++ [c] }
  | .characterExit _ _ c _ _ =>
      { t with
          events := t.events ++ [e],
          participants :=
            if c ∈ t.participants then t.participants else t.participants ++ [c],
          current_participants :=
            if c ∈ t.current_participants then t.current_participants.erase c
            else t.current_participants }
  | .scene _ _ _ _ => { t with events := t.events ++ [e] }

/- ===================== Serialization (roleplay_system.py) ===================== -/

/-- One tagged record of the JSON event list written by
`RoleplaySystem._save_conversation` (lines 249-298): each variant carries the
explicit `type` tag plus the envelope and kind-specific fields the source
writes for that kind. -/
inductive SavedEvent where
  | message (timeline_id : String) (timestamp : Nat)
      (character : String) (dialouge : String) (action_description : String)
  | scene (timeline_id : String) (timestamp : Nat)
      (location : String) (description : String)
  | act_event (timeline_id : String) (timestamp : Nat)
      (character : String) (description : String)
  | characterEntry (timeline_id : String) (timestamp : Nat)
      (character : String) (description : String)
  | characterExit (timeline_id : String) (timestamp : Nat)
      (character : String) (description : String) (reason : Option String)
  deriving DecidableEq

/-- The top-level JSON object written by `_save_conversation` (lines 240-247):
`id`, `title`, `events`, `participants`, `timeline_summary`,
`visible_to_user`.  The source writes no `current_participants` key. -/
structure SavedTimeline where
  id : String
  title : Option String
  events : List SavedEvent
  participants : List String
  timeline_summary : Option String
  visible_to_user : Bool
  deriving DecidableEq

/-- `_save_conversation`, per-event branch (lines 250-298): dispatch on the
event's class and emit the tagged record.  The closed variant makes the
final `else: continue` branch unreachable. -/
def save_event : TimelineEvent → SavedEvent
  | .message i ts c d ad => .message i ts c d ad
  | .scene i ts l d => .scene i ts l d
  | .act_event i ts c d => .act_event i ts c d
  | .characterEntry i ts c d => .characterEntry i ts c d
  | .characterExit i ts c d r => .characterExit i ts c d r

/-- `_save_conversation` (lines 231-301): build the saved object from the
in-memory timeline.  `current_participants` is not written. -/
def save_conversation (t : TimelineHistory) : SavedTimeline :=
  { id := t.id, title := t.title,
    events := t.events.map save_event,
    participants := t.participants,
    timeline_summary := t.timeline_summary,
    visible_to_user := t.visible_to_user }

/-- `_load_conversation_if_exists`, per-event branch (lines 144-198):
dispatch on the explicit `type` tag (always present in data produced by
`_save_conversation`) and rebuild the event.  The extra `scene_type` keyword
passed when rebuilding a Scene is ignored by the model class, as in the
source. -/
def load_event : SavedEvent → TimelineEvent
  | .message i ts c d ad => .message i ts c d ad
  | .scene i ts l d => .scene i ts l d
  | .act_event i ts c d => .act_event i ts c d
  | .characterEntry i ts c d => .characterEntry i ts c d
  | .characterExit i ts c d r => .characterExit i ts c d r

/-- `_load_conversation_if_exists` (lines 109-224) applied to data produced by
`_save_conversation`: clear the events of the timeline built at startup
(`pre`), restore `id`/`title`/`participants`/`timeline_summary`/
`visible_to_user` from the saved keys (all present in saved data), and append
the rebuilt events in order.  No `current_participants` key exists in the
saved form and the source never assigns that field, so it keeps the value the
pre-load timeline had. -/
def load_conversation (pre : TimelineHistory) (d : SavedTimeline) : TimelineHistory :=
  { pre with
    id := d.id, title := d.title,
    participants := d.participants,
    timeline_summary := d.timeline_summary,
    visible_to_user := d.visible_to_user,
    events := d.events.map load_event }

/- ===================== Decision oracle (characterManager.py) ===================== -/

/-- The JSON object a successful oracle call parses to in
`CharacterManager.decide_to_speak` (lines 491-499); each field is read with
`dict.get` and a default, so each is optional here. -/
structure ParsedDecision where
  wants_to_speak : Option Bool
  priority : Option ℚ
  reasoning : Option String
  action_description : Option String
  message : Option String
  deriving DecidableEq

/-- Outcome of the oracle call inside `decide_to_speak`'s `try` block:
either the response parsed, or `json.loads` failed on the response text, or
the call raised (timeout, quota, connection error, ...) with an exception
type name and message. -/
inductive OracleCallResult where
  | ok (parsed : ParsedDecision)
  | jsonDecodeError (response_text : String)
  | exn (type_name : String) (msg : String)
  deriving DecidableEq

/-- The 5-tuple `decide_to_speak` returns:
(wants_to_speak, priority, reasoning, action_description, message). -/
structure SpeakDecision where
  wants_to_speak : Bool
  priority : ℚ
  reasoning : String
  action_description : Option String
  message : Option String
  deriving DecidableEq

/-- Python `needle in hay` on strings, at character-list level. -/
def chars_contains (needle : List Char) : List Char → Bool
  | [] => needle.isEmpty
  | c :: t => needle.isPrefixOf (c :: t) || chars_contains needle t

/-- `decide_to_speak` line 508: the quota test on the stringified exception,
`"quota" in error_str.lower() or "429" in error_str or
"ResourceExhausted" in error_str`.  Python `str.lower` is modelled as a
character-wise `Char.toLower`. -/
def quota_signal (error_str : String) : Bool :=
  chars_contains "quota".data (error_str.data.map Char.toLower) ||
    chars_contains "429".data error_str.data ||
    chars_contains "ResourceExhausted".data error_str.data

/-- `CharacterManager.decide_to_speak` (lines 459-512), result construction:
on success, read the parsed fields with their `dict.get` defaults; on
`json.JSONDecodeError`, return a non-speaking tuple whose reasoning embeds
the first 200 characters of the response; on any other exception, return the
`API_QUOTA_EXCEEDED` sentinel when the quota test matches the message and
otherwise a non-speaking tuple whose reasoning embeds the exception type and
message. -/
def decide_to_speak : OracleCallResult → SpeakDecision
  | .ok p =>
      { wants_to_speak := p.wants_to_speak.getD false,
        priority := p.priority.getD 0,
        reasoning := p.reasoning.getD "No reasoning provided",
        action_description := p.action_description,
        message := p.message }
  | .jsonDecodeError txt =>
      { wants_to_speak := false, priority := 0,
        reasoning := "JSON parsing failed. Response was: " ++ ⟨txt.data.take 200⟩,
        action_description := none, message := none }
  | .exn type_name msg =>
      if quota_signal msg then
        { wants_to_speak := false, priority := 0,
          reasoning := "API_QUOTA_EXCEEDED",
          action_description := none, message := none }
      else
        { wants_to_speak := false, priority := 0,
          reasoning := "Error: " ++ type_name ++ ": " ++ msg,
          action_description := none, message := none }

/- ===================== Round decisions (turn_manager.py) ===================== -/

/-- The decision tuple `_collect_speaking_decisions` unpacks per character
(line 89): `(response_type, priority, reasoning, dialogue, action)`.  The
producer `decide_turn_response` is absent from the source tree (only this
caller is present); the tuple shape is fixed by the unpacking and by the
spec's oracle contract (section 4.2). -/
structure Decision where
  rtype : String
  priority : ℚ
  reasoning : String
  dialogue : Option String
  act : Option String
  deriving DecidableEq

/-- Result of one character's `future.result()` in
`_collect_speaking_decisions`: either the decision tuple or a raised
exception (caught and skipped by the source). -/
inductive CollectOutcome where
  | ok (d : Decision)
  | exn (msg : String)
  deriving DecidableEq

/-- `TurnManager._collect_speaking_decisions` (lines 87-111), results in
completion order: skip a character whose future raised; skip (and only flag)
a decision whose reasoning is the `API_QUOTA_EXCEEDED` sentinel; keep a
decision whose `response_type` is `speak` or `act`; skip the rest (the
character stays quiet).  No dialogue/action shape check appears here. -/
def collect_speaking_decisions : List (String × CollectOutcome) → List (String × Decision)
  | [] => []
  | (c, o) :: rest =>
      match o with
      | .exn _ => collect_speaking_decisions rest
      | .ok d =>
          if d.reasoning = "API_QUOTA_EXCEEDED" then collect_speaking_decisions rest
          else if d.rtype = "speak" ∨ d.rtype = "act" then
            (c, d) :: collect_speaking_decisions rest
          else collect_speaking_decisions rest

/-- The shape check `process_ai_responses` applies to the selected winner
(lines 310-316): a `speak` needs non-empty dialogue, an `act` needs a
non-empty action. -/
def shape_valid (d : Decision) : Bool :=
  !(d.rtype = "speak" && (d.dialogue.getD "" = "")) &&
    !(d.rtype = "act" && (d.act.getD "" = ""))

/-- `_select_speaker_from_decisions` (lines 131-135): pair each decision with
`priority + uniform(-ε, ε)`; the sampled jitter values are an input, indexed
by position. -/
def adjusted_priorities (decisions : List (String × Decision)) (jitters : Nat → ℚ) :
    List (String × Decision × ℚ) :=
  decisions.enum.map (fun ie => (ie.2.1, ie.2.2, ie.2.2.priority + jitters ie.1))

/-- `_select_speaker_from_decisions` (lines 137-138): a stable descending
sort followed by taking element 0 returns the first list element attaining
the maximal adjusted priority (Python's sort is stable, so among equal keys
the earliest original element comes first). -/
def first_max : List (String × Decision × ℚ) → Option (String × Decision)
  | [] => none
  | x :: xs =>
      some (((xs.foldl (fun best y => if y.2.2 > best.2.2 then y else best) x)).1,
        ((xs.foldl (fun best y => if y.2.2 > best.2.2 then y else best) x)).2.1)

/-- `TurnManager._select_speaker_from_decisions` (lines 113-142): `None` on an
empty decision list, otherwise the champion's
`(character, response_type, dialogue, action)`. -/
def select_speaker_from_decisions (decisions : List (String × Decision))
    (jitters : Nat → ℚ) : Option (String × String × Option String × Option String) :=
  match first_max (adjusted_priorities decisions jitters) with
  | none => none
  | some (c, d) => some (c, d.rtype, d.dialogue, d.act)

/-- `TurnManager.select_next_speaker` (lines 227-259): `None` when the
timeline has no events; otherwise collect decisions from the active
characters (their oracle outcomes are the `results` input) and select. -/
def select_next_speaker (t : TimelineHistory)
    (results : List (String × CollectOutcome)) (jitters : Nat → ℚ) :
    Option (String × String × Option String × Option String) :=
  if t.events = [] then none
  else select_speaker_from_decisions (collect_speaking_decisions results) jitters

/- ===================== Python keyword-call discipline ===================== -/

/-- A Python-level error value.  Only `TypeError` is needed here. -/
inductive PyErr where
  | typeError (msg : String)
  deriving DecidableEq

/-- First keyword of a call that is not in the callee's parameter list;
Python raises `TypeError` at call time for such a keyword. -/
def unexpected_kwarg (params kwargs : List String) : Option String :=
  kwargs.find? (fun k => !params.contains k)

/-- Parameter names of `TimelineManager.create_scene` (lines 162-166):
`location` and `description` only. -/
def create_scene_params : List String := ["location", "description"]

/-- `TimelineManager.create_scene` body (lines 177-180): build the Scene. -/
def create_scene (location description : String) (sid : String) (ts : Nat) :
    TimelineEvent :=
  .scene sid ts location description

/-- A keyword call of `create_scene`: raises `TypeError` when a keyword is
not among its parameters, otherwise runs the body. -/
def create_scene_kwcall (kwargs : List String) (location description : String)
    (sid : String) (ts : Nat) : Except PyErr TimelineEvent :=
  match unexpected_kwarg create_scene_params kwargs with
  | some k => .error (.typeError
      ("create_scene() got an unexpected keyword argument " ++ k))
  | none => .ok (create_scene location description sid ts)

/-- Parameter names of `TimelineManager.generate_scene_event`
(lines 182-186): `timeline` and `recent_event_count` only. -/
def generate_scene_event_params : List String := ["timeline", "recent_event_count"]

/-- A keyword call of `TimelineManager.generate_scene_event`: raises
`TypeError` when a keyword is not among its parameters, otherwise yields the
Scene the generation oracle would produce (an input of the model). -/
def generate_scene_event_kwcall (kwargs : List String)
    (oracle_scene : TimelineEvent) : Except PyErr TimelineEvent :=
  match unexpected_kwarg generate_scene_event_params kwargs with
  | some k => .error (.typeError
      ("generate_scene_event() got an unexpected keyword argument " ++ k))
  | none => .ok oracle_scene

/-- `TurnManager._generate_scene_event` (lines 382-414): inside a
`try/except`, call `generate_scene_event(scene_type="environmental",
timeline=..., recent_event_count=15)` and append the Scene on success; the
`except` block only prints, so on error the timeline is left unchanged.  The
call site passes the keyword `scene_type`, which the callee does not accept. -/
def generate_scene_event_stall (t : TimelineHistory) (oracle_scene : TimelineEvent) :
    TimelineHistory :=
  match generate_scene_event_kwcall ["scene_type", "timeline", "recent_event_count"]
      oracle_scene with
  | .ok sc => add_event t sc
  | .error _ => t

/- ===================== The round loop (process_ai_responses) ===================== -/

/-- Python falsiness of an optional string: `not x` for `None` or `""`. -/
def is_blank : Option String → Bool
  | none => true
  | some s => s = ""

/-- `TimelineManager.create_message` (lines 137-158). -/
def create_message (character dialouge action_description : String)
    (sid : String) (ts : Nat) : TimelineEvent :=
  .message sid ts character dialouge action_description

/-- `TimelineManager.create_action` (lines 372-390). -/
def create_action (character description : String) (sid : String) (ts : Nat) :
    TimelineEvent :=
  .act_event sid ts character description

/-- Mutable state of one `process_ai_responses` call: the shared timeline,
the `responses` accumulator, `consecutive_count`, the instance field
`consecutive_silence_rounds` (which persists across calls) and
`last_speaker`. -/
structure LoopState where
  timeline : TimelineHistory
  responses : List (String × String)
  consecutive_count : Nat
  silence : Nat
  last_speaker : Option String
  deriving DecidableEq

/-- Oracle-provided data consumed by one iteration of the loop: the decision
outcomes of the active characters, the jitter samples, the envelope of the
event that would be created, and the Scene the stall oracle would produce. -/
structure RoundOracle where
  results : List (String × CollectOutcome)
  jitters : Nat → ℚ
  msg_id : String
  msg_ts : Nat
  stall_scene : TimelineEvent

/-- Control outcome of one loop iteration: `halt` models `break`,
`cont` models `continue` or falling through to the next `while` test. -/
inductive StepResult where
  | halt (s : LoopState)
  | cont (s : LoopState)
  deriving DecidableEq

/-- The state carried by either control outcome. -/
def step_state : StepResult → LoopState
  | .halt s => s
  | .cont s => s

/-- One iteration of the `while consecutive_count < max_turns` body of
`TurnManager.process_ai_responses` (lines 282-370), in source order:

* no selected speaker: increment `consecutive_silence_rounds`; at 2 or more,
  run `_generate_scene_event()` (whose internal call fails and is swallowed,
  see `generate_scene_event_stall`) and reset the counter to 0; `break`.
* a speaker was selected: first reset `consecutive_silence_rounds` to 0
  (line 301); if the speaker equals `last_speaker`, `continue`; if a `speak`
  has blank dialogue or an `act` has a blank action, `continue`; otherwise
  create and append the Message or Action, record the response, set
  `last_speaker`, increment `consecutive_count`, and fall through. -/
def loop_iteration (s : LoopState) (r : RoundOracle) : StepResult :=
  match select_next_speaker s.timeline r.results r.jitters with
  | none =>
      if s.silence + 1 ≥ 2 then
        .halt { s with
                  timeline := generate_scene_event_stall s.timeline r.stall_scene,
                  silence := 0 }
      else
        .halt { s with silence := s.silence + 1 }
  | some (c, ty, d, a) =>
      let s1 := { s with silence := 0 }
      if s1.last_speaker = some c then .cont s1
      else if ty = "speak" ∧ is_blank d then .cont s1
      else if ty = "act" ∧ is_blank a then .cont s1
      else if ty = "speak" then
        let body_language :=
          match a with
          | some bl => if bl = "" then "speaks" else bl
          | none => "speaks"
        let m := create_message c (d.getD "") body_language r.msg_id r.msg_ts
        .cont { s1 with
                  timeline := add_event s1.timeline m,
                  responses := s1.responses ++ [(c, d.getD "")],
                  last_speaker := some c,
                  consecutive_count := s1.consecutive_count + 1 }
      else if ty = "act" then
        let m := create_action c (a.getD "") r.msg_id r.msg_ts
        .cont { s1 with
                  timeline := add_event s1.timeline m,
                  responses := s1.responses ++ [(c, "[ACTION: " ++ a.getD "" ++ "]")],
                  last_speaker := some c,
                  consecutive_count := s1.consecutive_count + 1 }
      else
        .cont { s1 with
                  last_speaker := some c,
                  consecutive_count := s1.consecutive_count + 1 }

/-- The `while consecutive_count < max_turns` loop run over a finite prefix
of the oracle's round answers: stop on `break`, when the guard fails, or when
the supplied prefix is exhausted. -/
def run_loop (max_turns : Nat) : LoopState → List RoundOracle → LoopState
  | s, [] => s
  | s, r :: rest =>
      if s.consecutive_count < max_turns then
        match loop_iteration s r with
        | .halt s1 => s1
        | .cont s1 => run_loop max_turns s1 rest
      else s

/-- The same loop over an infinite stream of oracle answers, with explicit
fuel: `none` means the loop is still running after `fuel` iterations. -/
def run_loop_stream (max_turns : Nat) (rounds : Nat → RoundOracle) :
    Nat → Nat → LoopState → Option LoopState
  | 0, _, _ => none
  | fuel + 1, i, s =>
      if s.consecutive_count < max_turns then
        match loop_iteration s (rounds i) with
        | .halt s1 => some s1
        | .cont s1 => run_loop_stream max_turns rounds fuel (i + 1) s1
      else some s

/- ===================== Meta-narrative step and full call ===================== -/

/-- The dict `TimelineManager.should_generate_scene` returns when the oracle
decides a scene should happen (lines 356-361): keys `scene_generated`,
`location`, `event_description` — and no `scene_type` key. -/
structure SceneDecision where
  location : String
  event_description : String
  deriving DecidableEq

/-- One entry/exit record from the movement oracle
(`decide_character_movements`, absent from the source tree; shape per the
spec section 4.5 and the dict keys the caller reads: `character`,
`description`, either possibly missing or empty). -/
structure Movement where
  character : Option String
  description : Option String
  deriving DecidableEq

/-- Python falsiness of the movement fields (`None` or `""`). -/
def movement_field_blank : Option String → Bool
  | none => true
  | some s => s = ""

/-- `TurnManager._process_meta_narrative_decisions` (lines 144-225).
Step 1: when the scene oracle returned a decision, read
`scene_decision.get('scene_type', 'environmental')` (the key never exists,
so the default is taken) and call
`create_scene(scene_type=..., location=..., description=...)` — a keyword
call whose `scene_type` keyword the callee does not accept, raising an
uncaught `TypeError`; on (hypothetical) success the Scene is appended.
Step 2: process entries then exits; skip records with a falsy name or
description or naming no known character; append a `CharacterEntry` or
`CharacterExit` per record. -/
def process_meta_narrative (cast : List String) (t : TimelineHistory)
    (scene_decision : Option SceneDecision) (entries exits : List Movement)
    (sid : String) (ts : Nat) : Except PyErr TimelineHistory := do
  let t1 ←
    match scene_decision with
    | none => Except.ok t
    | some sd =>
        Except.map (fun sc => add_event t sc)
          (create_scene_kwcall ["scene_type", "location", "description"]
            sd.location sd.event_description sid ts)
  let movements := entries.map (fun m => (m, true)) ++ exits.map (fun m => (m, false))
  Except.ok (movements.foldl
    (fun acc mi =>
      if movement_field_blank mi.1.character || movement_field_blank mi.1.description then acc
      else if cast.contains (mi.1.character.getD "") then
        add_event acc
          (if mi.2 then
            TimelineEvent.characterEntry sid ts (mi.1.character.getD "") (mi.1.description.getD "")
          else
            TimelineEvent.characterExit sid ts (mi.1.character.getD "") (mi.1.description.getD "") none)
      else acc)
    t1)

/-- Inputs one `process_ai_responses` call consumes from its oracles. -/
structure CallInput where
  scene_decision : Option SceneDecision
  entries : List Movement
  exits : List Movement
  meta_id : String
  meta_ts : Nat
  rounds : List RoundOracle

/-- State that survives between `process_ai_responses` calls: the timeline
and the instance counter `consecutive_silence_rounds`. -/
structure SystemState where
  timeline : TimelineHistory
  silence : Nat
  deriving DecidableEq

/-- `TurnManager.process_ai_responses` (lines 261-380): run the
meta-narrative step first (its `TypeError` is uncaught and propagates), then
the round loop from a fresh `responses`/`consecutive_count`/`last_speaker`
and the persistent silence counter.  The judge evaluation after the loop
returns immediately in the default construction (`StoryManager.story` is
`None`), and `_save_conversation` catches every exception internally, so
neither affects the result. -/
def process_ai_responses (max_turns : Nat) (cast : List String)
    (st : SystemState) (ci : CallInput) :
    Except PyErr (SystemState × List (String × String)) := do
  let t1 ← process_meta_narrative cast st.timeline ci.scene_decision
    ci.entries ci.exits ci.meta_id ci.meta_ts
  let final := run_loop max_turns
    { timeline := t1, responses := [], consecutive_count := 0,
      silence := st.silence, last_speaker := none } ci.rounds
  Except.ok ({ timeline := final.timeline, silence := final.silence }, final.responses)

/-- A sequence of `process_ai_responses` calls chained over the persistent
state (the caller loop in `roleplay_system.py`), keeping only the state. -/
def process_calls (max_turns : Nat) (cast : List String) :
    SystemState → List CallInput → Except PyErr SystemState
  | st, [] => Except.ok st
  | st, ci :: rest =>
      match process_ai_responses max_turns cast st ci with
      | .error e => .error e
      | .ok (st1, _) => process_calls max_turns cast st1 rest


/-- Decidable equality for `Except`, used to evaluate the modelled calls on
concrete inputs. -/
instance {e a : Type} [DecidableEq e] [DecidableEq a] : DecidableEq (Except e a) := fun x y =>
  match x, y with
  | .error u, .error v =>
      if h : u = v then .isTrue (by rw [h])
      else .isFalse (fun hh => h (by cases hh; rfl))
  | .error _, .ok _ => .isFalse (fun hh => by cases hh)
  | .ok _, .error _ => .isFalse (fun hh => by cases hh)
  | .ok u, .ok v =>
      if h : u = v then .isTrue (by rw [h])
      else .isFalse (fun hh => h (by cases hh; rfl))

/- ===================== Concrete instances ===================== -/

/-- A small timeline with one event, as after the opening player greeting. -/
def base_timeline : TimelineHistory :=
  { id := "tl0", title := some "Group Roleplay Session",
    events := [.message "m0" 0 "Player" "Hello everyone!" "speaks"],
    participants := ["Player", "A", "B"],
    current_participants := ["Player", "A", "B"],
    timeline_summary := none, visible_to_user := true }

/-- A timeline whose `current_participants` differs from the participant
list because one character has exited. -/
def t_c2 : TimelineHistory :=
  { id := "tl2", title := some "Group Roleplay Session",
    events := [.message "m1" 1 "Harry" "Hello" "waves",
               .characterExit "x1" 2 "Ron" "slips out of the room" none],
    participants := ["Harry", "Ron"],
    current_participants := ["Harry"],
    timeline_summary := none, visible_to_user := true }

/-- The freshly constructed timeline a load call starts from: everyone is
initially present. -/
def pre_c2 : TimelineHistory :=
  { t_c2 with events := [], current_participants := ["Harry", "Ron"] }

/-- A two-person timeline for the participant-update instances. -/
def t_c7 : TimelineHistory :=
  { id := "tl7", title := none, events := [],
    participants := ["Harry", "Ron"], current_participants := ["Harry", "Ron"],
    timeline_summary := none, visible_to_user := true }

/-- A timeline satisfying the subset invariant, with a character that has
never been listed. -/
def t_c10 : TimelineHistory :=
  { id := "tl10", title := none, events := [],
    participants := ["Harry"], current_participants := ["Harry"],
    timeline_summary := none, visible_to_user := true }

/-- A deliberate non-speaking oracle verdict whose tuple coincides with the
one `decide_to_speak` returns for a timed-out call. -/
def silent_verdict_c9 : ParsedDecision :=
  { wants_to_speak := some false, priority := some 0,
    reasoning := some "Error: Timeout: The read operation timed out",
    action_description := none, message := none }

/-- A shape-invalid decision: a `speak` with empty dialogue, at top priority. -/
def blank_speak_c5 : Decision :=
  { rtype := "speak", priority := 1, reasoning := "urgent",
    dialogue := some "", act := some "waves" }

/-- A shape-valid `act` decision at lower priority. -/
def valid_act_c5 : Decision :=
  { rtype := "act", priority := mkRat 1 2, reasoning := "reacts",
    dialogue := none, act := some "steps back" }

/-- Collected oracle outcomes for one round: the invalid high-priority
`speak` and the valid lower-priority `act`. -/
def results_c5 : List (String × CollectOutcome) :=
  [("A", .ok blank_speak_c5), ("B", .ok valid_act_c5)]

/-- A speaks at priority 0.9 wanting to speak. -/
def speak_A_c1 : Decision :=
  { rtype := "speak", priority := mkRat 9 10, reasoning := "has news",
    dialogue := some "Listen to this!", act := some "leans in" }

/-- B acts at priority 0.85. -/
def act_B_c1 : Decision :=
  { rtype := "act", priority := mkRat 17 20, reasoning := "reacts",
    dialogue := none, act := some "raises an eyebrow" }

/-- The round oracle data of the spec scenario: A(0.9, speak), B(0.85, act),
with zero jitter samples. -/
def round_c1 : RoundOracle :=
  { results := [("A", .ok speak_A_c1), ("B", .ok act_B_c1)],
    jitters := fun _ => 0, msg_id := "m1", msg_ts := 1,
    stall_scene := .scene "s1" 1 "Common Room" "A log shifts in the fire" }

/-- Loop state in which A resolved the immediately preceding round. -/
def state_c1 : LoopState :=
  { timeline := base_timeline, responses := [], consecutive_count := 1,
    silence := 0, last_speaker := some "A" }

/-- A would-be winner that fails shape validation. -/
def blank_speak_c4 : Decision :=
  { rtype := "speak", priority := 1, reasoning := "wants to speak",
    dialogue := some "", act := some "opens mouth" }

/-- A round whose only candidate (hence winner) fails shape validation. -/
def round_c4 : RoundOracle :=
  { results := [("A", .ok blank_speak_c4)],
    jitters := fun _ => 0, msg_id := "m4", msg_ts := 4,
    stall_scene := .scene "s4" 4 "Common Room" "Rain starts" }

/-- Loop state with one stalled round already recorded. -/
def state_c4 : LoopState :=
  { timeline := base_timeline, responses := [], consecutive_count := 0,
    silence := 1, last_speaker := none }

/-- A valid speak decision by A, offered every round. -/
def speak_A_c8 : Decision :=
  { rtype := "speak", priority := 1, reasoning := "talks",
    dialogue := some "hi", act := none }

/-- The constant round: A is always the only (and winning) candidate. -/
def round_c8 : RoundOracle :=
  { results := [("A", .ok speak_A_c8)],
    jitters := fun _ => 0, msg_id := "m8", msg_ts := 2,
    stall_scene := .scene "s8" 2 "Common Room" "A breeze" }

/-- Initial loop state of a `process_ai_responses` call. -/
def state0_c8 : LoopState :=
  { timeline := base_timeline, responses := [], consecutive_count := 0,
    silence := 0, last_speaker := none }

/-- The state after the first round applied A's message. -/
def state1_c8 : LoopState :=
  { timeline := add_event base_timeline (create_message "A" "hi" "speaks" "m8" 2),
    responses := [("A", "hi")], consecutive_count := 1,
    silence := 0, last_speaker := some "A" }

/-- The stream in which every round offers the same winning candidate A. -/
def const_rounds_c8 : Nat → RoundOracle := fun _ => round_c8

/-- Cast of the stall scenario. -/
def cast_c6 : List String := ["A", "B"]

/-- Persistent system state before the stall scenario. -/
def sys_c6 : SystemState := { timeline := base_timeline, silence := 0 }

/-- One call in which every agent stays quiet: the meta step decides
nothing, and the single round yields no decisions. -/
def silent_call_c6 : CallInput :=
  { scene_decision := none, entries := [], exits := [],
    meta_id := "meta6", meta_ts := 3,
    rounds := [{ results := [], jitters := fun _ => 0, msg_id := "m6", msg_ts := 3,
                 stall_scene := .scene "s6" 3 "Common Room" "A gust of wind" }] }

/-- Persistent system state before the meta-narrative scene transition. -/
def sys_c3 : SystemState := { timeline := base_timeline, silence := 0 }

/-- A call whose meta-narrative oracle decides a scene transition. -/
def call_c3 : CallInput :=
  { scene_decision := some { location := "Great Hall",
                             event_description := "Thunder rolls overhead" },
    entries := [], exits := [], meta_id := "meta3", meta_ts := 4, rounds := [] }

end Metavern

namespace Metavern

/- ===================== Helper lemmas ===================== -/

/-- Two strings with different leading characters differ. -/
lemma ne_of_head_ne {s t : String} {a b : Char} (hs : s.data.head? = some a)
    (ht : t.data.head? = some b) (hab : a ≠ b) : s ≠ t := by
  intro h
  rw [h, ht] at hs
  exact hab ((Option.some.injEq _ _).mp hs).symm

/-- Adding a character to a list when absent: membership and occurrence
count of the result. -/
lemma mem_count_add_if_absent (l : List String) (c : String) :
    c ∈ (if c ∈ l then l else l ++ [c]) ∧
      (if c ∈ l then l else l ++ [c]).count c = max (l.count c) 1 := by
  by_cases h : c ∈ l
  · refine ⟨by simp [h], ?_⟩
    have hpos : 1 ≤ l.count c := List.one_le_count_iff.mpr h
    simp [h, Nat.max_eq_left hpos]
  · have hz : l.count c = 0 := List.count_eq_zero.mpr h
    simp [h, List.count_append, hz]

/-- Membership is preserved by the conditional append. -/
lemma mem_of_mem_add_if_absent {l : List String} {x : String} (c : String)
    (hx : x ∈ l) : x ∈ (if c ∈ l then l else l ++ [c]) := by
  by_cases h : c ∈ l <;> simp [h, hx]

/-- A round trip through the per-event serialization is the identity. -/
lemma load_event_save_event (e : TimelineEvent) : load_event (save_event e) = e := by
  cases e <;> rfl

/-- Mapping the per-event round trip over a list is the identity. -/
lemma map_load_event_save_event (l : List TimelineEvent) :
    (l.map save_event).map load_event = l := by
  induction l with
  | nil => rfl
  | cons h t ih => simp [load_event_save_event, ih]

/-- The composed per-event round trip maps to the identity. -/
lemma map_comp_load_event_save_event (l : List TimelineEvent) :
    l.map (load_event ∘ save_event) = l := by
  induction l with
  | nil => rfl
  | cons h t ih => simp [Function.comp, load_event_save_event, ih]

/- ===================== C7 ===================== -/

/-- C7: `add_event` updates the participant sets by kind.  A Message, Action
or CharacterEntry adds its character to both `participants` and
`current_participants` without duplicating either (occurrence counts stay at
their old value when positive and become 1 otherwise); a CharacterExit keeps
every previous member of `participants` and removes its character from
`current_participants` (given the no-duplicate invariant of that list); a
later CharacterEntry for the same character re-adds it to
`current_participants` without changing `participants`. -/
theorem C7_add_event_updates_participant_sets
    (t : TimelineHistory) (sid : String) (ts : Nat) (c d ad : String)
    (r : Option String) :
    (let t1 := add_event t (.message sid ts c d ad)
     c ∈ t1.participants ∧ c ∈ t1.current_participants ∧
       t1.participants.count c = max (t.participants.count c) 1 ∧
       t1.current_participants.count c = max (t.current_participants.count c) 1) ∧
    (let t2 := add_event t (.act_event sid ts c d)
     c ∈ t2.participants ∧ c ∈ t2.current_participants ∧
       t2.participants.count c = max (t.participants.count c) 1 ∧
       t2.current_participants.count c = max (t.current_participants.count c) 1) ∧
    (let t3 := add_event t (.characterEntry sid ts c d)
     c ∈ t3.participants ∧ c ∈ t3.current_participants ∧
       t3.participants.count c = max (t.participants.count c) 1 ∧
       t3.current_participants.count c = max (t.current_participants.count c) 1) ∧
    (let t4 := add_event t (.characterExit sid ts c d r)
     (∀ x ∈ t.participants, x ∈ t4.participants) ∧
       (t.current_participants.Nodup → c ∉ t4.current_participants) ∧
       (let t5 := add_event t4 (.characterEntry sid ts c d)
        c ∈ t5.current_participants ∧ t5.participants = t4.participants)) := by
  refine ⟨?_, ?_, ?_, ?_⟩
  · simpa [add_event] using
      ⟨(mem_count_add_if_absent t.participants c).1,
       (mem_count_add_if_absent t.current_participants c).1,
       (mem_count_add_if_absent t.participants c).2,
       (mem_count_add_if_absent t.current_participants c).2⟩
  · simpa [add_event] using
      ⟨(mem_count_add_if_absent t.participants c).1,
       (mem_count_add_if_absent t.current_participants c).1,
       (mem_count_add_if_absent t.participants c).2,
       (mem_count_add_if_absent t.current_participants c).2⟩
  · simpa [add_event] using
      ⟨(mem_count_add_if_absent t.participants c).1,
       (mem_count_add_if_absent t.current_participants c).1,
       (mem_count_add_if_absent t.participants c).2,
       (mem_count_add_if_absent t.current_participants c).2⟩
  · refine ⟨?_, ?_, ?_, ?_⟩
    · intro x hx
      simpa [add_event] using mem_of_mem_add_if_absent c hx
    · intro hnd
      by_cases h : c ∈ t.current_participants
      · simpa [add_event, h] using hnd.not_mem_erase
      · simp [add_event, h]
    · have hc : c ∈ (add_event t (.characterExit sid ts c d r)).participants := by
        simpa [add_event] using (mem_count_add_if_absent t.participants c).1
      simpa [add_event] using
        (mem_count_add_if_absent
          (add_event t (.characterExit sid ts c d r)).current_participants c).1
    · have hc : c ∈ (if c ∈ t.participants then t.participants else t.participants ++ [c]) :=
        (mem_count_add_if_absent t.participants c).1
      simp [add_event, hc]

/-- C7 witness: on a concrete two-person timeline, an exit removes Ron from
`current_participants` only, and a message re-adds membership facts. -/
theorem C7_witness :
    "Ron" ∉ (add_event t_c7 (.characterExit "x1" 5 "Ron" "leaves" none)).current_participants ∧
    "Ron" ∈ (add_event t_c7 (.characterExit "x1" 5 "Ron" "leaves" none)).participants ∧
    "Ron" ∈ (add_event t_c7 (.message "m1" 6 "Ron" "Hi" "waves")).current_participants := by
  have h := C7_add_event_updates_participant_sets t_c7 "x1" 5 "Ron" "leaves" "w" none
  have h2 := C7_add_event_updates_participant_sets t_c7 "m1" 6 "Ron" "Hi" "waves" none
  exact ⟨h.2.2.2.2.1 (by decide), by decide, by decide⟩

/- ===================== C10 ===================== -/

/-- C10: `add_event` preserves the invariant that every name in
`current_participants` also occurs in `participants`, for every event kind;
moreover a CharacterExit always leaves its character in `participants`
(adding it first when it was not previously listed). -/
theorem C10_current_subset_participants
    (t : TimelineHistory) (e : TimelineEvent)
    (hsub : ∀ x ∈ t.current_participants, x ∈ t.participants) :
    (∀ x ∈ (add_event t e).current_participants, x ∈ (add_event t e).participants) ∧
    (∀ (sid : String) (ts : Nat) (c d : String) (r : Option String),
      c ∈ (add_event t (.characterExit sid ts c d r)).participants) := by
  constructor
  · intro x hx
    cases e with
    | message sid ts c d ad =>
        simp only [add_event] at hx ⊢
        by_cases hcc : c ∈ t.current_participants
        · simp only [if_pos hcc] at hx
          exact mem_of_mem_add_if_absent c (hsub x hx)
        · simp only [if_neg hcc, List.mem_append, List.mem_singleton] at hx
          rcases hx with hx | rfl
          · exact mem_of_mem_add_if_absent c (hsub x hx)
          · exact (mem_count_add_if_absent t.participants x).1
    | act_event sid ts c d =>
        simp only [add_event] at hx ⊢
        by_cases hcc : c ∈ t.current_participants
        · simp only [if_pos hcc] at hx
          exact mem_of_mem_add_if_absent c (hsub x hx)
        · simp only [if_neg hcc, List.mem_append, List.mem_singleton] at hx
          rcases hx with hx | rfl
          · exact mem_of_mem_add_if_absent c (hsub x hx)
          · exact (mem_count_add_if_absent t.participants x).1
    | characterEntry sid ts c d =>
        simp only [add_event] at hx ⊢
        by_cases hcc : c ∈ t.current_participants
        · simp only [if_pos hcc] at hx
          exact mem_of_mem_add_if_absent c (hsub x hx)
        · simp only [if_neg hcc, List.mem_append, List.mem_singleton] at hx
          rcases hx with hx | rfl
          · exact mem_of_mem_add_if_absent c (hsub x hx)
          · exact (mem_count_add_if_absent t.participants x).1
    | characterExit sid ts c d r =>
        simp only [add_event] at hx ⊢
        by_cases hcc : c ∈ t.current_participants
        · simp only [if_pos hcc] at hx
          exact mem_of_mem_add_if_absent c (hsub x (List.mem_of_mem_erase hx))
        · simp only [if_neg hcc] at hx
          exact mem_of_mem_add_if_absent c (hsub x hx)
    | scene sid ts l d =>
        simp only [add_event] at hx ⊢
        exact hsub x hx
  · intro sid ts c d r
    simpa [add_event] using (mem_count_add_if_absent t.participants c).1

/-- C10 witness: a concrete exit of a never-listed character preserves the
subset relation and first lists the character. -/
theorem C10_witness :
    (∀ x ∈ (add_event t_c10 (.characterExit "x2" 7 "Ghost" "fades" none)).current_participants,
      x ∈ (add_event t_c10 (.characterExit "x2" 7 "Ghost" "fades" none)).participants) ∧
    "Ghost" ∈ (add_event t_c10 (.characterExit "x2" 7 "Ghost" "fades" none)).participants := by
  have h := C10_current_subset_participants t_c10
    (.characterExit "x2" 7 "Ghost" "fades" none) (by decide)
  exact ⟨h.1, h.2 "x2" 7 "Ghost" "fades" none⟩

/- ===================== C2 ===================== -/

/-- C2 counterexample: saving the timeline in which Ron has exited and
loading it back into a fresh session does not reconstruct
`current_participants`: the saved form has no such key, so the loaded
timeline keeps the fresh session's value. -/
theorem C2_counterexample :
    (load_conversation pre_c2 (save_conversation t_c2)).current_participants ≠
      t_c2.current_participants ∧
    (load_conversation pre_c2 (save_conversation t_c2)).events = t_c2.events := by
  decide

/-- C2 amended: the save/load round trip reconstructs the ordered event
sequence with every field, and the `participants` list and all saved
metadata — but `current_participants`, which the saved form omits, keeps
whatever value the pre-load timeline had. -/
theorem C2_roundtrip_all_but_current_participants
    (pre t : TimelineHistory) :
    load_conversation pre (save_conversation t) =
      { t with current_participants := pre.current_participants } := by
  cases pre with
  | mk pid ptitle pevents pparts pcur psum pvis =>
      cases t with
      | mk tid ttitle tevents tparts tcur tsum tvis =>
          simp [load_conversation, save_conversation, map_load_event_save_event,
            map_comp_load_event_save_event]

end Metavern

namespace Metavern

/- ===================== C9 ===================== -/

/-- C9 counterexample: the result `decide_to_speak` returns for a timed-out
oracle call is exactly the tuple a deliberate non-speaking verdict can
produce — a non-speaking decision with priority 0 — so failure modes are
coerced into the same result type as a silent verdict, distinguished only by
the reasoning text. -/
theorem C9_counterexample :
    decide_to_speak (.exn "Timeout" "The read operation timed out") =
      decide_to_speak (.ok silent_verdict_c9) ∧
    (decide_to_speak (.exn "Timeout" "The read operation timed out")).wants_to_speak = false ∧
    (decide_to_speak (.exn "Timeout" "The read operation timed out")).priority = 0 := by
  decide

/-- C9 amended: the three failure modes all come back as non-speaking
decisions with priority 0 — the same shape as a deliberate silent verdict —
but they carry pairwise distinct reasoning strings: the quota sentinel
`API_QUOTA_EXCEEDED`, a reasoning starting with `JSON parsing failed`, and a
reasoning starting with `Error:` for any other exception (timeouts
included), so they remain distinguishable from each other by text. -/
theorem C9_failure_modes (txt type_name msg tyq msgq : String)
    (hmsg : quota_signal msg = false) (hq : quota_signal msgq = true) :
    ((decide_to_speak (.exn tyq msgq)).wants_to_speak = false ∧
      (decide_to_speak (.exn tyq msgq)).priority = 0 ∧
      (decide_to_speak (.exn tyq msgq)).reasoning = "API_QUOTA_EXCEEDED") ∧
    ((decide_to_speak (.jsonDecodeError txt)).wants_to_speak = false ∧
      (decide_to_speak (.jsonDecodeError txt)).priority = 0) ∧
    ((decide_to_speak (.exn type_name msg)).wants_to_speak = false ∧
      (decide_to_speak (.exn type_name msg)).priority = 0) ∧
    (decide_to_speak (.jsonDecodeError txt)).reasoning ≠ "API_QUOTA_EXCEEDED" ∧
    (decide_to_speak (.exn type_name msg)).reasoning ≠ "API_QUOTA_EXCEEDED" ∧
    (decide_to_speak (.jsonDecodeError txt)).reasoning ≠
      (decide_to_speak (.exn type_name msg)).reasoning := by
  have hjson : (decide_to_speak (.jsonDecodeError txt)).reasoning =
      "JSON parsing failed. Response was: " ++ (⟨txt.data.take 200⟩ : String) := rfl
  have hexn : (decide_to_speak (.exn type_name msg)).reasoning =
      "Error: " ++ type_name ++ ": " ++ msg := by
    simp [decide_to_speak, hmsg]
  refine ⟨by simp [decide_to_speak, hq], ⟨rfl, rfl⟩, ?_, ?_, ?_, ?_⟩
  · constructor
    · simp [decide_to_speak, hmsg]
    · simp [decide_to_speak, hmsg]
  · rw [hjson]
    exact ne_of_head_ne (show _ = some 'J' from rfl) (show _ = some 'A' from rfl) (by decide)
  · rw [hexn]
    exact ne_of_head_ne (show _ = some 'E' from rfl) (show _ = some 'A' from rfl) (by decide)
  · rw [hjson, hexn]
    exact ne_of_head_ne (show _ = some 'J' from rfl) (show _ = some 'E' from rfl) (by decide)

/-- C9 witness: concrete timeout and quota messages, with the quota test
evaluated and the reasoning strings separated. -/
theorem C9_witness :
    quota_signal "The read operation timed out" = false ∧
    quota_signal "ResourceExhausted: 429 Rate limit exceeded." = true ∧
    (decide_to_speak (.exn "Timeout" "The read operation timed out")).reasoning ≠
      "API_QUOTA_EXCEEDED" ∧
    (decide_to_speak (.exn "Exception" "ResourceExhausted: 429 Rate limit exceeded.")).reasoning =
      "API_QUOTA_EXCEEDED" := by
  have h := C9_failure_modes "not json" "Timeout" "The read operation timed out"
    "Exception" "ResourceExhausted: 429 Rate limit exceeded." (by decide) (by decide)
  exact ⟨by decide, by decide, h.2.2.2.2.1, h.1.2.2⟩

/- ===================== C5 ===================== -/

/-- C5 amended: the candidate list over which the winner is selected is the
list of non-errored, non-quota outcomes whose type is `speak` or `act` —
with no shape validation: membership is characterized without any condition
on the dialogue or action payload, so a shape-invalid response is counted as
a vote (the shape check is applied only after selection, to the winner). -/
theorem C5_candidate_characterization (results : List (String × CollectOutcome))
    (c : String) (d : Decision) :
    (c, d) ∈ collect_speaking_decisions results ↔
      ((c, CollectOutcome.ok d) ∈ results ∧
        d.reasoning ≠ "API_QUOTA_EXCEEDED" ∧
        (d.rtype = "speak" ∨ d.rtype = "act")) := by
  induction results with
  | nil => simp [collect_speaking_decisions]
  | cons hd tl ih =>
      obtain ⟨c0, o0⟩ := hd
      cases o0 with
      | exn m =>
          simp only [collect_speaking_decisions, List.mem_cons, ih]
          constructor
          · rintro ⟨h1, h2, h3⟩
            exact ⟨Or.inr h1, h2, h3⟩
          · rintro ⟨h1 | h1, h2, h3⟩
            · cases h1
            · exact ⟨h1, h2, h3⟩
      | ok d0 =>
          by_cases hqd : d0.reasoning = "API_QUOTA_EXCEEDED"
          · simp only [collect_speaking_decisions, if_pos hqd, List.mem_cons, ih]
            constructor
            · rintro ⟨h1, h2, h3⟩
              exact ⟨Or.inr h1, h2, h3⟩
            · rintro ⟨h1 | h1, h2, h3⟩
              · simp only [Prod.mk.injEq, CollectOutcome.ok.injEq] at h1
                obtain ⟨rfl, rfl⟩ := h1
                exact absurd hqd h2
              · exact ⟨h1, h2, h3⟩
          · by_cases hrt : d0.rtype = "speak" ∨ d0.rtype = "act"
            · simp only [collect_speaking_decisions, if_neg hqd, if_pos hrt, List.mem_cons, ih]
              constructor
              · rintro (h1 | ⟨h1, h2, h3⟩)
                · simp only [Prod.mk.injEq] at h1
                  obtain ⟨rfl, rfl⟩ := h1
                  exact ⟨Or.inl rfl, hqd, hrt⟩
                · exact ⟨Or.inr h1, h2, h3⟩
              · rintro ⟨h1 | h1, h2, h3⟩
                · simp only [Prod.mk.injEq, CollectOutcome.ok.injEq] at h1
                  obtain ⟨rfl, rfl⟩ := h1
                  exact Or.inl rfl
                · exact Or.inr ⟨h1, h2, h3⟩
            · simp only [collect_speaking_decisions, if_neg hqd, if_neg hrt, List.mem_cons, ih]
              constructor
              · rintro ⟨h1, h2, h3⟩
                exact ⟨Or.inr h1, h2, h3⟩
              · rintro ⟨h1 | h1, h2, h3⟩
                · simp only [Prod.mk.injEq, CollectOutcome.ok.injEq] at h1
                  obtain ⟨rfl, rfl⟩ := h1
                  exact absurd h3 hrt
                · exact ⟨h1, h2, h3⟩

/-- C5 counterexample: a `speak` response with empty dialogue is kept as a
candidate by `_collect_speaking_decisions` and then wins selection over a
shape-valid lower-priority response — shape-invalid responses are counted as
votes, refuting the claim that the candidate set contains only shape-valid
responses. -/
theorem C5_counterexample :
    ("A", blank_speak_c5) ∈ collect_speaking_decisions results_c5 ∧
    shape_valid blank_speak_c5 = false ∧
    select_speaker_from_decisions (collect_speaking_decisions results_c5) (fun _ => 0) =
      some ("A", "speak", some "", some "waves") := by
  refine ⟨by decide, by decide, ?_⟩
  have hcol : collect_speaking_decisions results_c5 =
      [("A", blank_speak_c5), ("B", valid_act_c5)] := by decide
  have hadj : adjusted_priorities [("A", blank_speak_c5), ("B", valid_act_c5)] (fun _ => 0) =
      [("A", blank_speak_c5, blank_speak_c5.priority + 0),
       ("B", valid_act_c5, valid_act_c5.priority + 0)] := rfl
  have hcmp : ¬ (blank_speak_c5.priority + 0 < valid_act_c5.priority + 0) := by
    simp only [blank_speak_c5, valid_act_c5, Rat.mkRat_eq_div]
    norm_num
  rw [hcol]
  unfold select_speaker_from_decisions
  rw [hadj]
  simp only [first_max, List.foldl_cons, List.foldl_nil, gt_iff_lt]
  rw [if_neg hcmp]
  rfl

/-- C5 witness: concrete instances of the candidate characterization, in
both directions. -/
theorem C5_witness :
    ("B", valid_act_c5) ∈ collect_speaking_decisions results_c5 ∧
    (("A", CollectOutcome.ok blank_speak_c5) ∈ results_c5 ∧
      blank_speak_c5.reasoning ≠ "API_QUOTA_EXCEEDED" ∧
      (blank_speak_c5.rtype = "speak" ∨ blank_speak_c5.rtype = "act")) := by
  refine ⟨?_, ?_⟩
  · exact (C5_candidate_characterization results_c5 "B" valid_act_c5).mpr
      ⟨by decide, by decide, by decide⟩
  · exact (C5_candidate_characterization results_c5 "A" blank_speak_c5).mp (by decide)

/- ===================== C1 ===================== -/

/-- C1: when the selected winner of a round is the same agent recorded as
having resolved the immediately preceding round (`last_speaker`), the round
resolves to no event: the iteration returns control with the state unchanged
except that the silence counter is reset — the timeline, the applied
responses and the turn count are untouched, and no runner-up is promoted in
the winner's place. -/
theorem C1_same_speaker_round_resolves_to_no_event
    (s : LoopState) (r : RoundOracle) (c ty : String) (d a : Option String)
    (hsel : select_next_speaker s.timeline r.results r.jitters = some (c, ty, d, a))
    (hlast : s.last_speaker = some c) :
    loop_iteration s r = .cont { s with silence := 0 } := by
  unfold loop_iteration
  rw [hsel]
  simp [hlast]

/-- C1 witness: the spec scenario — A at priority 0.9 wanting to speak, B at
priority 0.85 wanting to act, zero jitter, A the previous round's winner.
A is still selected, and the round produces no event. -/
theorem C1_witness :
    select_next_speaker state_c1.timeline round_c1.results round_c1.jitters =
      some ("A", "speak", some "Listen to this!", some "leans in") ∧
    state_c1.last_speaker = some "A" ∧
    loop_iteration state_c1 round_c1 = .cont { state_c1 with silence := 0 } := by
  have hcol : collect_speaking_decisions round_c1.results =
      [("A", speak_A_c1), ("B", act_B_c1)] := by decide
  have hadj : adjusted_priorities [("A", speak_A_c1), ("B", act_B_c1)] round_c1.jitters =
      [("A", speak_A_c1, speak_A_c1.priority + 0),
       ("B", act_B_c1, act_B_c1.priority + 0)] := rfl
  have hcmp : ¬ (speak_A_c1.priority + 0 < act_B_c1.priority + 0) := by
    simp only [speak_A_c1, act_B_c1, Rat.mkRat_eq_div]
    norm_num
  have hsel : select_next_speaker state_c1.timeline round_c1.results round_c1.jitters =
      some ("A", "speak", some "Listen to this!", some "leans in") := by
    rw [select_next_speaker, if_neg (by decide : ¬ state_c1.timeline.events = []), hcol]
    unfold select_speaker_from_decisions
    rw [hadj]
    simp only [first_max, List.foldl_cons, List.foldl_nil, gt_iff_lt]
    rw [if_neg hcmp]
    rfl
  exact ⟨hsel, rfl,
    C1_same_speaker_round_resolves_to_no_event state_c1 round_c1 "A" "speak"
      (some "Listen to this!") (some "leans in") hsel rfl⟩

/- ===================== C4 ===================== -/

/-- C4 counterexample: a round whose only candidate — hence winner — is a
`speak` with empty dialogue appends no event and fabricates nothing, but the
stall counter is reset to 0 (the reset at the top of the winner branch runs
before the validation check), not incremented: starting from one recorded
stalled round, the counter ends at 0 instead of the claimed 2. -/
theorem C4_counterexample :
    loop_iteration state_c4 round_c4 = .cont { state_c4 with silence := 0 } ∧
    ({ state_c4 with silence := 0 } : LoopState).silence ≠ state_c4.silence + 1 ∧
    ({ state_c4 with silence := 0 } : LoopState).timeline = state_c4.timeline ∧
    ({ state_c4 with silence := 0 } : LoopState).responses = state_c4.responses := by
  decide

/-- C4 amended: when the selected winner fails shape validation (a `speak`
with blank dialogue or an `act` with blank action) and is not the previous
speaker, the round resolves with no appended event and no fabricated
content — but the stall counter is reset to 0 rather than incremented,
because the silence-counter reset precedes the validation check; only rounds
with no selected winner at all feed the stall counter. -/
theorem C4_validation_failure_round
    (s : LoopState) (r : RoundOracle) (c ty : String) (d a : Option String)
    (hsel : select_next_speaker s.timeline r.results r.jitters = some (c, ty, d, a))
    (hlast : ¬ s.last_speaker = some c)
    (hval : (ty = "speak" ∧ is_blank d = true) ∨ (ty = "act" ∧ is_blank a = true)) :
    loop_iteration s r = .cont { s with silence := 0 } := by
  unfold loop_iteration
  rw [hsel]
  rcases hval with ⟨rfl, hb⟩ | ⟨rfl, hb⟩
  · simp [hlast, hb]
  · simp [hlast, hb]

/-- C4 witness: the amended statement applied to the concrete invalid-winner
round. -/
theorem C4_witness :
    select_next_speaker state_c4.timeline round_c4.results round_c4.jitters =
      some ("A", "speak", some "", some "opens mouth") ∧
    loop_iteration state_c4 round_c4 = .cont { state_c4 with silence := 0 } := by
  have hsel : select_next_speaker state_c4.timeline round_c4.results round_c4.jitters =
      some ("A", "speak", some "", some "opens mouth") := by decide
  exact ⟨hsel,
    C4_validation_failure_round state_c4 round_c4 "A" "speak" (some "") (some "opens mouth")
      hsel (by decide) (Or.inl ⟨rfl, by decide⟩)⟩

end Metavern

namespace Metavern

/- ===================== C8 ===================== -/

/-- Per-iteration accounting of the loop body: the turn counter grows by at
most one, and the response list grows only when the counter grows. -/
lemma loop_iteration_accounting (s : LoopState) (r : RoundOracle) :
    (step_state (loop_iteration s r)).consecutive_count ≤ s.consecutive_count + 1 ∧
    (step_state (loop_iteration s r)).responses.length + s.consecutive_count ≤
      (step_state (loop_iteration s r)).consecutive_count + s.responses.length := by
  unfold loop_iteration
  cases hsel : select_next_speaker s.timeline r.results r.jitters with
  | none =>
      by_cases h2 : s.silence + 1 ≥ 2 <;>
        (refine ⟨?_, ?_⟩ <;> simp [h2, step_state] <;> omega)
  | some v =>
      obtain ⟨c, ty, d, a⟩ := v
      by_cases hl : s.last_speaker = some c
      · refine ⟨?_, ?_⟩ <;> simp [hl, step_state] <;> omega
      · by_cases hv1 : ty = "speak" ∧ is_blank d = true
        · refine ⟨?_, ?_⟩ <;> simp [hl, hv1, step_state] <;> omega
        · by_cases hv2 : ty = "act" ∧ is_blank a = true
          · refine ⟨?_, ?_⟩ <;> simp [hl, hv1, hv2, step_state] <;> omega
          · by_cases hsp : ty = "speak"
            · have hnb : is_blank d = false := by
                cases hb : is_blank d
                · rfl
                · exact absurd ⟨hsp, hb⟩ hv1
              refine ⟨?_, ?_⟩ <;> simp [hl, hv1, hv2, hsp, hnb, step_state] <;> omega
            · by_cases hac : ty = "act"
              · have hna : is_blank a = false := by
                  cases hb : is_blank a
                  · rfl
                  · exact absurd ⟨hac, hb⟩ hv2
                refine ⟨?_, ?_⟩ <;> simp [hl, hv1, hv2, hsp, hac, hna, step_state] <;> omega
              · refine ⟨?_, ?_⟩ <;> simp [hl, hv1, hv2, hsp, hac, step_state] <;> omega

/-- The loop keeps the turn counter below the cap and never applies more
responses than turns. -/
lemma run_loop_accounting (mt : Nat) :
    ∀ (rounds : List RoundOracle) (s : LoopState), s.consecutive_count ≤ mt →
      (run_loop mt s rounds).consecutive_count ≤ mt ∧
      (run_loop mt s rounds).responses.length + s.consecutive_count ≤
        (run_loop mt s rounds).consecutive_count + s.responses.length := by
  intro rounds
  induction rounds with
  | nil =>
      intro s hs
      refine ⟨?_, ?_⟩ <;> simp only [run_loop] <;> omega
  | cons r rest ih =>
      intro s hs
      rw [run_loop]
      by_cases hlt : s.consecutive_count < mt
      · rw [if_pos hlt]
        have hspec := loop_iteration_accounting s r
        cases hstep : loop_iteration s r with
        | halt s1 =>
            rw [hstep] at hspec
            simp only [step_state] at hspec
            refine ⟨?_, ?_⟩ <;> simp <;> omega
        | cont s1 =>
            rw [hstep] at hspec
            simp only [step_state] at hspec
            have hrec := ih s1 (by omega)
            refine ⟨?_, ?_⟩ <;> simp <;> omega
      · rw [if_neg hlt]
        exact ⟨hs, by omega⟩

/-- C8 amended: one `process_ai_responses` call applies at most `max_turns`
events — from the initial per-call state, the returned `responses` list has
length at most the cap, for every finite sequence of round outcomes.
Termination, however, is NOT guaranteed (see the counterexample): a round
skipped for same-speaker or validation reasons advances neither the turn
counter nor a break, so the loop terminates only when the oracle stream
eventually yields no winner, or valid new winners often enough to reach the
cap. -/
theorem C8_cap_on_applied_events (mt : Nat) (t : TimelineHistory) (sil : Nat)
    (rounds : List RoundOracle) :
    (run_loop mt
        { timeline := t, responses := [], consecutive_count := 0,
          silence := sil, last_speaker := none }
        rounds).responses.length ≤ mt := by
  have h := run_loop_accounting mt rounds
    { timeline := t, responses := [], consecutive_count := 0,
      silence := sil, last_speaker := none }
    (Nat.zero_le mt)
  simp only [List.length_nil] at h
  omega

/-- After the first applied event, the constant same-winner stream keeps the
loop running for every fuel bound. -/
lemma run_loop_stream_never_halts_c8 :
    ∀ fuel i, run_loop_stream 3 const_rounds_c8 fuel i state1_c8 = none := by
  have h2 : loop_iteration state1_c8 round_c8 = .cont state1_c8 := by decide
  have hg1 : state1_c8.consecutive_count < 3 := by decide
  intro fuel
  induction fuel with
  | zero => intro i; rfl
  | succ n ih =>
      intro i
      rw [run_loop_stream, if_pos hg1]
      have hs : const_rounds_c8 i = round_c8 := rfl
      rw [hs, h2]
      exact ih (i + 1)

/-- Hence the whole loop, started from the initial call state, never halts
on that stream. -/
lemma run_loop_stream_c8_none :
    ∀ fuel, run_loop_stream 3 const_rounds_c8 fuel 0 state0_c8 = none := by
  have h1 : loop_iteration state0_c8 round_c8 = .cont state1_c8 := by decide
  intro fuel
  cases fuel with
  | zero => rfl
  | succ n =>
      rw [run_loop_stream, if_pos (by decide : state0_c8.consecutive_count < 3)]
      have hs : const_rounds_c8 0 = round_c8 := rfl
      rw [hs, h1]
      exact run_loop_stream_never_halts_c8 n 1

/-- C8 counterexample: the loop can run forever.  With the cap at its
default 3 and an oracle stream in which agent A is the sole (winning)
candidate every round, the first round applies A's message reaching state
`state1_c8`; that state is a fixpoint of the loop body — the round is
skipped by the same-speaker `continue`, changing nothing — while the
`while` guard is still true, so the loop can never exit: concretely, after
50 iterations it is still running (and `run_loop_stream_c8_none` extends
this to every fuel bound), refuting the claim that the internal loop cannot
run forever when selected responses are repeatedly skipped. -/
theorem C8_counterexample :
    loop_iteration state0_c8 round_c8 = .cont state1_c8 ∧
    loop_iteration state1_c8 round_c8 = .cont state1_c8 ∧
    state1_c8.consecutive_count < 3 ∧
    run_loop_stream 3 const_rounds_c8 50 0 state0_c8 = none := by
  decide

/- ===================== C6 ===================== -/

/-- C6: the stall counter mechanics follow the claim — one silent call takes
the counter from 0 to 1; a second consecutive silent call reaches the
threshold 2, runs the injection step and resets the counter to 0; a third
silent call starts again from 0 and ends at 1.  But the Scene injection
itself never happens: the internal `generate_scene_event(scene_type=...)`
call raises `TypeError` (the callee accepts no `scene_type` keyword), the
`except` block swallows it, and the timeline is returned unchanged after
every call — no Scene event is ever appended at the threshold. -/
theorem C6_threshold_resets_but_never_injects :
    process_calls 3 cast_c6 sys_c6 [silent_call_c6] =
      .ok { timeline := base_timeline, silence := 1 } ∧
    process_calls 3 cast_c6 sys_c6 [silent_call_c6, silent_call_c6] =
      .ok { timeline := base_timeline, silence := 0 } ∧
    process_calls 3 cast_c6 sys_c6 [silent_call_c6, silent_call_c6, silent_call_c6] =
      .ok { timeline := base_timeline, silence := 1 } ∧
    generate_scene_event_kwcall ["scene_type", "timeline", "recent_event_count"]
        (.scene "s6" 3 "Common Room" "A gust of wind") =
      .error (.typeError "generate_scene_event() got an unexpected keyword argument scene_type") := by
  decide

/- ===================== C3 ===================== -/

/-- C3: an error does escape `process_ai_responses`.  When the
meta-narrative oracle decides a scene transition, the call
`create_scene(scene_type=..., location=..., description=...)` raises
`TypeError` — `create_scene` accepts only `location` and `description` — and
no handler on the path catches it, so the call returns an error instead of a
list of applied results. -/
theorem C3_scene_transition_error_propagates :
    process_ai_responses 3 cast_c6 sys_c3 call_c3 =
      .error (.typeError "create_scene() got an unexpected keyword argument scene_type") := by
  decide

end Metavern
